import Mathlib

/-!
# Verification of `async-rethinkdb-pool` (async_repool)

Shallow embedding of the two connection-pool variants of the repository:

* `src/async_repool/async_pool.py` — the cooperative (asyncio) variant,
  embedded in namespace `Coop`;
* `src/async_repool/async.py` — the thread-blocking variant, embedded in
  namespace `Blocking`.

Connections are modelled by `Nat` identifiers (the opaque objects returned by
`rethinkdb.connect`); each pool state carries a `next_conn` counter that plays
the role of the allocator, and a `closed` log recording every identifier on
which `close()` was invoked.  Timestamps (`time.time()`) are modelled as `Int`
values passed explicitly to each operation that reads the clock.
-/

namespace Coop

/-- Embeds `AsyncConnectionWrapper` of `async_pool.py` after `init_wrapper`
has completed: one live connection plus its creation timestamp. -/
structure AsyncConnectionWrapper where
  conn : Nat
  connected_at : Int
  deriving Repr, DecidableEq

/-- Embeds the `expire` property of `AsyncConnectionWrapper`
(`async_pool.py` lines 52–57): Python's `if not self._pool.connection_ttl`
treats exactly `0` as falsy, so `ttl = 0` short-circuits to `False`;
otherwise the handle is expired when `now - connected_at > ttl`. -/
def expire (ttl connected_at now : Int) : Bool :=
  if ttl = 0 then false else decide (now - connected_at > ttl)

/-- Embeds the mutable state of `AsyncConnectionPool` of `async_pool.py`.
`store = none` models `self._pool = None` (the cleared queue reference after
`release_pool`); while live, the list is the FIFO queue contents, head =
next element returned by `get`, `put` appends at the back. -/
structure Pool where
  pool_size : Nat
  connection_ttl : Int
  store : Option (List AsyncConnectionWrapper)
  current_acquired : Int
  next_conn : Nat
  closed : List Nat
  deriving Repr, DecidableEq

/-- Embeds `AsyncConnectionPool.__init__` of `async_pool.py`: stores the
configuration, an empty queue and a zero checked-out counter (no I/O). -/
def mkPool (pool_size : Nat) (connection_ttl : Int) : Pool :=
  { pool_size := pool_size
    connection_ttl := connection_ttl
    store := some []
    current_acquired := 0
    next_conn := 0
    closed := [] }

/-- One iteration of the `init_pool` loop body
(`await self._pool.put(await self.new_conn())`): `new_conn` builds a wrapper
around a freshly connected connection stamped `now`, and `put` appends it. -/
def putNewConn (now : Int) (st : Pool) : Pool :=
  { st with
    store := st.store.map (fun l => l ++ [⟨st.next_conn, now⟩])
    next_conn := st.next_conn + 1 }

/-- Helper running `k` iterations of the `init_pool` loop. -/
def initLoop (now : Int) : Nat → Pool → Pool
  | 0, st => st
  | k + 1, st => initLoop now k (putNewConn now st)

/-- Embeds `AsyncConnectionPool.init_pool` (`async_pool.py` lines 91–93):
`for _ in range(0, self.pool_size): await self._pool.put(await self.new_conn())`. -/
def init_pool (now : Int) (st : Pool) : Pool :=
  initLoop now st.pool_size st

/-- Embeds `AsyncConnectionPool.acquire` (`async_pool.py` lines 104–118) under
single-task (uncontended) semantics: the cooperative lock is free and
`self._pool.get()` on an empty queue would suspend the only task forever, which
the embedding reports as `none`; `none` also models the `AttributeError` of
`get` on the cleared (`None`) store.  Otherwise the front wrapper is taken; if
it is expired its connection is closed and a fresh connection replaces it
(`new_conn`); the checked-out counter is incremented and the underlying
connection (not the wrapper) is returned. -/
def acquire (now : Int) (st : Pool) : Option (Nat × Pool) :=
  match st.store with
  | none => none
  | some [] => none
  | some (w :: rest) =>
    if expire st.connection_ttl w.connected_at now then
      some (st.next_conn,
        { st with
          store := some rest
          closed := st.closed ++ [w.conn]
          next_conn := st.next_conn + 1
          current_acquired := st.current_acquired + 1 })
    else
      some (w.conn,
        { st with
          store := some rest
          current_acquired := st.current_acquired + 1 })

/-- Embeds `AsyncConnectionPool.release` (`async_pool.py` lines 120–128): the
raw connection is re-wrapped in a fresh `AsyncConnectionWrapper` stamped with
the current time, appended to the queue, and the checked-out counter is
decremented.  `none` models the `AttributeError` of `put` on the cleared
store. -/
def release (now : Int) (conn : Nat) (st : Pool) : Option Pool :=
  match st.store with
  | none => none
  | some l =>
    some { st with
      store := some (l ++ [⟨conn, now⟩])
      current_acquired := st.current_acquired - 1 }

end Coop

/-- Result of a `release_pool` call, for either variant.  A Python method
either raises `PoolException` (leaving the object in the state it had at the
raise, carried by `raisedPoolException`), returns normally, or crashes with
`AttributeError` when it dereferences the cleared (`None`) store. -/
inductive RPResult (σ : Type) where
  | raisedPoolException (st : σ)
  | ok (st : σ)
  | crashedOnClearedStore
  deriving Repr, DecidableEq

namespace Coop

/-- The `while not self._pool.empty()` drain loop of `release_pool`
(`async_pool.py` lines 137–139): each iteration runs
`conn = await self.acquire()` then `await conn.close()`.  The recursion is
over the queue contents, which each `acquire` shortens by one.  Each branch
inlines the corresponding branch of `acquire` (validated by
`drainLoop_step_is_acquire_then_close` below) followed by the `close()` of the
connection `acquire` handed out. -/
def drainLoop (now : Int) : List AsyncConnectionWrapper → Pool → Pool
  | [], st => st
  | w :: rest, st =>
    if expire st.connection_ttl w.connected_at now then
      drainLoop now rest
        { st with
          store := some rest
          closed := st.closed ++ [w.conn] ++ [st.next_conn]
          next_conn := st.next_conn + 1
          current_acquired := st.current_acquired + 1 }
    else
      drainLoop now rest
        { st with
          store := some rest
          closed := st.closed ++ [w.conn]
          current_acquired := st.current_acquired + 1 }

/-- Embeds `AsyncConnectionPool.release_pool` (`async_pool.py` lines 134–141):
first the guard `if self._current_acquired > 0: raise PoolException(...)`,
which fires before the store is touched; then the drain loop; finally
`self._pool = None`. -/
def release_pool (now : Int) (st : Pool) : RPResult Pool :=
  if 0 < st.current_acquired then .raisedPoolException st
  else
    match st.store with
    | none => .crashedOnClearedStore
    | some l => .ok { drainLoop now l st with store := none }

end Coop

namespace Blocking

/-- Embeds `AsyncConnectionWrapper` of `async.py` (lines 25–36): one live
connection plus its creation timestamp.  `release` constructs these with an
explicit `conn`; the `conn is None` branch (calling `R.connect`) is never
reached in the embedded operations because `new_conn` does not construct this
class at all (see `mkPoolFuel`). -/
structure AsyncConnectionWrapper where
  conn : Nat
  connected_at : Int
  deriving Repr, DecidableEq

/-- The tree of objects built by `AsyncConnectionPool.__init__` of `async.py`
(lines 73–98): a pool is a queue of the `pool_size` objects its constructor
`put`s.  `new_conn` (lines 100–105) — despite its docstring and its
`-> AsyncConnectionWrapper` annotation — evaluates
`AsyncConnectionPool(self._pool, **self.connection_kwargs)`, so every queue
element is itself a nested pool. -/
inductive BPoolObj where
  | mk (queued : List BPoolObj)

/-- Embeds `AsyncConnectionPool.__init__` with an explicit call-stack budget
`fuel` (Python's stack is finite: exceeding it raises `RecursionError`).
Construction with `pool_size = n` runs `n` iterations of
`self._pool.put(self.new_conn())`, and each `new_conn` call constructs a
nested `AsyncConnectionPool` one frame deeper whose `pool_size` is the
default `10` (the forwarded `connection_kwargs` are RethinkDB connection
parameters and carry no `pool_size` key).  `none` means the construction
cannot complete within `fuel` nested frames. -/
def mkPoolFuel : Nat → Nat → Option BPoolObj
  | 0, _ => none
  | fuel + 1, pool_size =>
    if pool_size = 0 then some (.mk [])
    else (mkPoolFuel fuel 10).map fun child => .mk (List.replicate pool_size child)

/-- Outcome of the branch in `AsyncConnectionPool.acquire` of `async.py`
(lines 115–118) as a function of the supplied timeout and the current queue
contents: with `timeout is None` the code calls `self._pool.get_nowait()`,
which returns the front wrapper or raises `queue.Empty` immediately; with a
timeout it calls `self._pool.get(True, timeout)`, which returns the front
wrapper or waits up to `timeout` seconds before raising `queue.Empty`. -/
inductive AcquireWait where
  | raiseEmptyNow
  | returnWrapper (w : AsyncConnectionWrapper)
  | waitUpTo (t : Nat)
  deriving Repr, DecidableEq

/-- The waiting behaviour chosen by `acquire` (`async.py` lines 107–121). -/
def acquireWait (timeout : Option Nat) (queueContents : List AsyncConnectionWrapper) :
    AcquireWait :=
  match timeout with
  | none =>
    match queueContents with
    | [] => .raiseEmptyNow
    | w :: _ => .returnWrapper w
  | some t =>
    match queueContents with
    | [] => .waitUpTo t
    | w :: _ => .returnWrapper w

/-- Embeds the mutable state of `AsyncConnectionPool` of `async.py` relevant
to `acquire`/`release`/`release_pool`; `store = none` models
`self._pool = None` after a successful `release_pool`. -/
structure Pool where
  connection_ttl : Int
  store : Option (List AsyncConnectionWrapper)
  current_acquired : Int
  closed : List Nat
  deriving Repr, DecidableEq

/-- Embeds `acquire` of `async.py` (lines 107–121) on the `timeout is None`
path under single-thread semantics: `get_nowait` pops the front wrapper and
the counter is incremented, or `queue.Empty` is raised (`none`) when the
queue is empty; `none` also models the `AttributeError` on the cleared
store. -/
def acquire_nowait (st : Pool) : Option (Nat × Pool) :=
  match st.store with
  | none => none
  | some [] => none
  | some (w :: rest) =>
    some (w.conn,
      { st with
        store := some rest
        current_acquired := st.current_acquired + 1 })

/-- Embeds `release` of `async.py` (lines 123–129): the raw connection is
re-wrapped (`AsyncConnectionWrapper(self._pool, conn)`) with a fresh
timestamp, `put` at the back, and the counter decremented. -/
def release (now : Int) (conn : Nat) (st : Pool) : Option Pool :=
  match st.store with
  | none => none
  | some l =>
    some { st with
      store := some (l ++ [⟨conn, now⟩])
      current_acquired := st.current_acquired - 1 }

/-- The `while not self._pool.empty()` drain loop of `release_pool`
(`async.py` lines 137–139): each iteration is `conn = self.acquire()`
(the `timeout is None` path, so `get_nowait` — the queue is non-empty, so it
pops the front wrapper and increments the counter) followed by
`conn.close()`. -/
def drainLoop : List AsyncConnectionWrapper → Pool → Pool
  | [], st => st
  | w :: rest, st =>
    drainLoop rest
      { st with
        store := some rest
        closed := st.closed ++ [w.conn]
        current_acquired := st.current_acquired + 1 }

/-- Embeds `release_pool` of `async.py` (lines 134–144): the guard
`if self._current_acquired > 0: raise PoolException(...)` fires before the
store is touched; then the drain loop; the cleanup thread is stopped and
joined (no effect on the embedded state); finally `self._pool = None`. -/
def release_pool (st : Pool) : RPResult Pool :=
  if 0 < st.current_acquired then .raisedPoolException st
  else
    match st.store with
    | none => .crashedOnClearedStore
    | some l => .ok { drainLoop l st with store := none }

/-- Per-handle outcome of one pass of `cleanup` (`async.py` lines 146–166).
`replacedAfterClosing c` records that the handle's connection `c` was closed
(`conn_wrapper.connection.close()`) and `queue_tmp.put(self.new_conn())` was
invoked to build a replacement (that call is itself the broken `new_conn`,
see `mkPoolFuel`); `kept w` records that the wrapper was carried over
unchanged into `queue_tmp`. -/
inductive CleanupEntry where
  | kept (w : AsyncConnectionWrapper)
  | replacedAfterClosing (oldConn : Nat)
  deriving Repr, DecidableEq

/-- The scan of `cleanup` (`async.py` lines 146–166): every wrapper drained
from the queue is tested with `(now - conn_wrapper.connected_at) > self.connection_ttl`
and either replaced (old connection closed) or carried over unchanged. -/
def cleanup (ttl now : Int) (l : List AsyncConnectionWrapper) : List CleanupEntry :=
  l.map fun w =>
    if now - w.connected_at > ttl then .replacedAfterClosing w.conn else .kept w

end Blocking

namespace CoopSched

/-!
Event-loop model of the cooperative variant under task contention, for the
multi-waiter scenario.  It makes the suspension points of
`AsyncConnectionPool.acquire`/`release` (`async_pool.py` lines 104–128)
explicit: `acquire` is `await self._pool_lock.acquire()`, then
`await self._pool.get()`, then (synchronously) the expire check, the counter
increment and `self._pool_lock.release()`; `release` is
`await self._pool_lock.acquire()`, then (synchronously) `put`, decrement and
`self._pool_lock.release()`.  `asyncio.Lock` and `asyncio.Queue` wake their
FIFO-ordered waiters; a fast path that finds the lock free or the queue
non-empty does not yield to the event loop, so a task keeps running until an
await actually suspends it.
-/

/-- Program counter of one task at its next suspension point or synchronous
segment. -/
inductive PC where
  | aLock
  | aGet
  | aGot (w : Coop.AsyncConnectionWrapper)
  | extWork (c : Nat)
  | rLock (c : Nat)
  | rPut (c : Nat)
  deriving Repr, DecidableEq

/-- One client task: its program counter (`none` when finished) and whether
its script releases the connection after using it
(`conn = await pool.acquire(); await <external work>; await pool.release(conn)`). -/
structure Task where
  pc : Option PC
  doRelease : Bool
  deriving Repr, DecidableEq

/-- Event-loop state: the tasks, the FIFO ready queue (head = running task,
which keeps its slot until it suspends or finishes), the `_pool_lock` owner
and its FIFO waiters, the `_pool` queue contents and its FIFO blocked
getters, and the pool fields shared with the sequential model. -/
structure Sys where
  tasks : List Task
  ready : List Nat
  lockOwner : Option Nat
  lockWaiters : List Nat
  queueItems : List Coop.AsyncConnectionWrapper
  queueGetters : List Nat
  connection_ttl : Int
  now : Int
  current_acquired : Int
  next_conn : Nat
  closed : List Nat
  deriving Repr, DecidableEq

/-- Set task `tid`'s program counter. -/
def setPC (s : Sys) (tid : Nat) (pc : Option PC) : Sys :=
  { s with
    tasks := s.tasks.set tid { (s.tasks.getD tid ⟨none, false⟩) with pc := pc } }

/-- `self._pool_lock.release()`: `asyncio.Lock.release` wakes the first
waiter, which acquires ownership when scheduled (modelled as an immediate
ownership transfer plus readying the waiter at the back of the ready
queue). -/
def unlock (s : Sys) : Sys :=
  match s.lockWaiters with
  | [] => { s with lockOwner := none }
  | t :: ts => { s with lockOwner := some t, lockWaiters := ts, ready := s.ready ++ [t] }

/-- Advance the system by one scheduler action: run the task at the head of
the ready queue through its next segment. -/
def step (s : Sys) : Sys :=
  match s.ready with
  | [] => s
  | tid :: rest =>
    match (s.tasks.getD tid ⟨none, false⟩).pc with
    | none => { s with ready := rest }
    | some .aLock =>
      -- `await self._pool_lock.acquire()`
      if s.lockOwner = none ∨ s.lockOwner = some tid then
        setPC { s with lockOwner := some tid } tid (some .aGet)
      else
        setPC { s with lockWaiters := s.lockWaiters ++ [tid], ready := rest } tid (some .aLock)
    | some .aGet =>
      -- `conn_wrapper = await self._pool.get()`
      match s.queueItems with
      | w :: items => setPC { s with queueItems := items } tid (some (.aGot w))
      | [] =>
        setPC { s with queueGetters := s.queueGetters ++ [tid], ready := rest } tid (some .aGet)
    | some (.aGot w) =>
      -- expire check, counter increment, `self._pool_lock.release()`, return
      let expired := Coop.expire s.connection_ttl w.connected_at s.now
      let c := if expired then s.next_conn else w.conn
      let s1 := { s with
        closed := if expired then s.closed ++ [w.conn] else s.closed
        next_conn := if expired then s.next_conn + 1 else s.next_conn
        current_acquired := s.current_acquired + 1 }
      let s2 := unlock s1
      if (s.tasks.getD tid ⟨none, false⟩).doRelease then
        setPC s2 tid (some (.extWork c))
      else
        setPC { s2 with ready := s2.ready.eraseIdx 0 } tid none
    | some (.extWork c) =>
      -- the caller's own awaited work: yields, task re-queued at the back
      setPC { s with ready := rest ++ [tid] } tid (some (.rLock c))
    | some (.rLock c) =>
      -- `await self._pool_lock.acquire()` inside `release`
      if s.lockOwner = none ∨ s.lockOwner = some tid then
        setPC { s with lockOwner := some tid } tid (some (.rPut c))
      else
        setPC { s with lockWaiters := s.lockWaiters ++ [tid], ready := rest } tid (some (.rLock c))
    | some (.rPut c) =>
      -- `await self._pool.put(AsyncConnectionWrapper(self, conn))`, decrement,
      -- `self._pool_lock.release()`; a blocked getter receives the wrapper
      let s1 : Sys :=
        match s.queueGetters with
        | [] => { s with queueItems := s.queueItems ++ [(⟨c, s.now⟩ : Coop.AsyncConnectionWrapper)] }
        | g :: gs =>
          setPC { s with queueGetters := gs, ready := s.ready ++ [g] } g
            (some (.aGot ⟨c, s.now⟩))
      let s2 := unlock { s1 with current_acquired := s1.current_acquired - 1 }
      setPC { s2 with ready := s2.ready.eraseIdx 0 } tid none

/-- Iterate the scheduler `n` steps. -/
def runSteps : Nat → Sys → Sys
  | 0, s => s
  | n + 1, s => runSteps n (step s)

/-- The contention scenario against `pool_size = 1` with `connection_ttl = 0`:
task 0 acquires, does awaited work, then releases; tasks 1 and 2 each attempt
an acquire after it.  The single wrapper (connection `0`, created at time 0)
is idle, the lock is free, and the ready queue is the creation order. -/
def scenario : Sys :=
  { tasks := [⟨some .aLock, true⟩, ⟨some .aLock, false⟩, ⟨some .aLock, false⟩]
    ready := [0, 1, 2]
    lockOwner := none
    lockWaiters := []
    queueItems := [⟨0, 0⟩]
    queueGetters := []
    connection_ttl := 0
    now := 5
    current_acquired := 0
    next_conn := 1
    closed := [] }

end CoopSched

namespace Coop

/-- One pool operation issued by a client: an `acquire` at clock value `now`,
or a `release` of connection `conn` at clock value `now`. -/
inductive PoolOp where
  | acq (now : Int)
  | rel (now : Int) (conn : Nat)
  deriving Repr, DecidableEq

/-- Run a sequence of pool operations on the cooperative pool, stopping with
`none` if any operation fails (an `acquire` that would suspend forever, or an
operation on the cleared store). -/
def runOps : List PoolOp → Pool → Option Pool
  | [], st => some st
  | .acq now :: ops, st => (acquire now st).bind fun p => runOps ops p.2
  | .rel now c :: ops, st => (release now c st).bind (runOps ops)

end Coop

namespace Coop

theorem initLoop_next_conn (now : Int) (k : Nat) : ∀ st : Pool,
    (initLoop now k st).next_conn = st.next_conn + k := by
  induction k with
  | zero => intro st; simp [initLoop]
  | succ n ih =>
    intro st
    simp only [initLoop]
    rw [ih]
    simp [putNewConn]
    omega

theorem initLoop_current_acquired (now : Int) (k : Nat) : ∀ st : Pool,
    (initLoop now k st).current_acquired = st.current_acquired := by
  induction k with
  | zero => intro st; simp [initLoop]
  | succ n ih => intro st; simp only [initLoop]; rw [ih]; rfl

theorem initLoop_store (now : Int) (k : Nat) : ∀ st : Pool,
    (initLoop now k st).store =
      st.store.map fun l =>
        l ++ (List.range k).map fun i => (⟨st.next_conn + i, now⟩ : AsyncConnectionWrapper) := by
  induction k with
  | zero => intro st; cases h : st.store <;> simp [initLoop, h]
  | succ n ih =>
    intro st
    simp only [initLoop]
    rw [ih]
    have hf : ∀ m : Nat,
        (fun i => (⟨m + 1 + i, now⟩ : AsyncConnectionWrapper)) =
          fun i => (⟨m + (i + 1), now⟩ : AsyncConnectionWrapper) := by
      intro m; funext i; congr 1; omega
    cases h : st.store with
    | none => simp [putNewConn, h]
    | some l =>
      simp [putNewConn, h, List.range_succ_eq_map, List.map_map, Function.comp, hf]

/-- Each iteration of `drainLoop` is exactly one `acquire` followed by the
`close()` of the connection it handed out: the inlined branches of
`drainLoop` agree with `acquire`. -/
theorem drainLoop_step_is_acquire_then_close (now : Int) (st : Pool)
    (w : AsyncConnectionWrapper) (rest : List AsyncConnectionWrapper)
    (h : st.store = some (w :: rest)) :
    ∃ c st', acquire now st = some (c, st') ∧
      drainLoop now (w :: rest) st = drainLoop now rest { st' with closed := st'.closed ++ [c] } := by
  by_cases he : expire st.connection_ttl w.connected_at now
  · refine ⟨st.next_conn,
      { st with
        store := some rest
        closed := st.closed ++ [w.conn]
        next_conn := st.next_conn + 1
        current_acquired := st.current_acquired + 1 },
      by simp [acquire, h, he], by simp [drainLoop, he]⟩
  · refine ⟨w.conn,
      { st with
        store := some rest
        current_acquired := st.current_acquired + 1 },
      by simp [acquire, h, he], by simp [drainLoop, he]⟩

theorem drainLoop_current_acquired (now : Int) :
    ∀ (l : List AsyncConnectionWrapper) (st : Pool),
      (drainLoop now l st).current_acquired = st.current_acquired + l.length := by
  intro l
  induction l with
  | nil => intro st; simp [drainLoop]
  | cons w rest ih =>
    intro st
    simp only [drainLoop]
    split <;> rw [ih] <;> simp <;> omega

/-- Counter invariant carried by any successfully executed operation
sequence: a live store whose length, added to the checked-out counter,
gives `N`. -/
theorem runOps_counter_inv (N : Int) :
    ∀ (ops : List PoolOp) (st st' : Pool) (l : List AsyncConnectionWrapper),
      st.store = some l → (l.length : Int) + st.current_acquired = N →
      runOps ops st = some st' →
      ∃ l', st'.store = some l' ∧ (l'.length : Int) + st'.current_acquired = N := by
  intro ops
  induction ops with
  | nil =>
    intro st st' l h hN hr
    simp [runOps] at hr
    exact hr ▸ ⟨l, h, hN⟩
  | cons op rest ih =>
    intro st st' l h hN hr
    cases op with
    | acq now =>
      cases l with
      | nil => simp [runOps, acquire, h] at hr
      | cons w l0 =>
        by_cases he : expire st.connection_ttl w.connected_at now
        · rw [show runOps (.acq now :: rest) st =
              runOps rest { st with
                store := some l0
                closed := st.closed ++ [w.conn]
                next_conn := st.next_conn + 1
                current_acquired := st.current_acquired + 1 } by
            simp [runOps, acquire, h, he]] at hr
          refine ih _ st' l0 rfl ?_ hr
          simp at hN ⊢
          omega
        · rw [show runOps (.acq now :: rest) st =
              runOps rest { st with
                store := some l0
                current_acquired := st.current_acquired + 1 } by
            simp [runOps, acquire, h, he]] at hr
          refine ih _ st' l0 rfl ?_ hr
          simp at hN ⊢
          omega
    | rel now c =>
      rw [show runOps (.rel now c :: rest) st =
          runOps rest { st with
            store := some (l ++ [⟨c, now⟩])
            current_acquired := st.current_acquired - 1 } by
        simp [runOps, release, h]] at hr
      refine ih _ st' (l ++ [⟨c, now⟩]) rfl ?_ hr
      simp
      omega

end Coop

namespace Blocking

theorem drainLoop_count_acquired :
    ∀ (l : List AsyncConnectionWrapper) (st : Pool),
      (drainLoop l st).current_acquired = st.current_acquired + l.length := by
  intro l
  induction l with
  | nil => intro st; simp [drainLoop]
  | cons w rest ih =>
    intro st
    simp only [drainLoop]
    rw [ih]
    simp
    omega

/-- Constructing the thread-blocking pool cannot complete within any stack
budget as soon as `pool_size ≥ 1`: every `new_conn` call recursively
constructs a nested pool of the default size 10. -/
theorem mkPoolFuel_none : ∀ (fuel n : Nat), 1 ≤ n → mkPoolFuel fuel n = none := by
  intro fuel
  induction fuel with
  | zero => intro n _; rfl
  | succ f ih =>
    intro n h
    have hn : ¬n = 0 := by omega
    simp [mkPoolFuel, hn, ih 10 (by omega)]

end Blocking

/-- C1: after initialization the cooperative pool's idle collection holds
exactly `N` freshly created handles (distinct fresh connections `0..N-1`,
each stamped with the initialization time) and the checked-out count is `0`;
the thread-blocking variant, however, cannot be constructed at all: its
`new_conn` builds a nested `AsyncConnectionPool` instead of a wrapper, so
construction at `pool_size = 1` fails to complete within any call-stack
budget. -/
theorem c1_initialization_population (now ttl : Int) (N fuel : Nat) :
    ((Coop.init_pool now (Coop.mkPool N ttl)).store =
        some ((List.range N).map fun i => (⟨i, now⟩ : Coop.AsyncConnectionWrapper)) ∧
      ((List.range N).map fun i => (⟨i, now⟩ : Coop.AsyncConnectionWrapper)).length = N ∧
      (Coop.init_pool now (Coop.mkPool N ttl)).current_acquired = 0) ∧
    Blocking.mkPoolFuel fuel 1 = none := by
  refine ⟨⟨?_, by simp, ?_⟩, Blocking.mkPoolFuel_none fuel 1 (by omega)⟩
  · have h := Coop.initLoop_store now N (Coop.mkPool N ttl)
    simpa [Coop.init_pool, Coop.mkPool] using h
  · have h := Coop.initLoop_current_acquired now N (Coop.mkPool N ttl)
    simpa [Coop.init_pool, Coop.mkPool] using h

/-- C2: in the thread-blocking variant, `acquire` with no timeout does not
block at all — on an empty queue it raises `queue.Empty` immediately
(`get_nowait`), contrary to its own docstring; only the with-timeout path
waits up to the deadline before raising. -/
theorem c2_acquire_no_timeout_raises_immediately :
    Blocking.acquireWait none [] = Blocking.AcquireWait.raiseEmptyNow ∧
    ∀ t : Nat, Blocking.acquireWait (some t) [] = Blocking.AcquireWait.waitUpTo t :=
  ⟨rfl, fun _ => rfl⟩

/-- C3: in the thread-blocking variant, a cleanup pass with
`connection_ttl = 0` does not carry an aged handle over unchanged: a handle
created at time 0 scanned at time 5 satisfies `(now - connected_at) > 0`, so
its connection is closed and it is replaced. -/
theorem c3_cleanup_ttl_zero_replaces :
    Blocking.cleanup 0 5 [⟨7, 0⟩] = [Blocking.CleanupEntry.replacedAfterClosing 7] := by
  decide

/-- C4: in both variants, `release_pool` with a positive checked-out counter
raises `PoolException` from the guard at the top of the method, before any
mutation: the state carried at the raise is the input state itself, so the
pool's idle collection and counter are unchanged and the pool stays
usable. -/
theorem c4_release_pool_guard_preserves (now : Int) (st : Coop.Pool) (bst : Blocking.Pool)
    (h1 : 0 < st.current_acquired) (h2 : 0 < bst.current_acquired) :
    Coop.release_pool now st = RPResult.raisedPoolException st ∧
    Blocking.release_pool bst = RPResult.raisedPoolException bst := by
  exact ⟨by simp [Coop.release_pool, h1], by simp [Blocking.release_pool, h2]⟩

/-- Witness for C4 at a concrete pool of size 1 with one checked-out
handle in each variant. -/
theorem c4_release_pool_guard_preserves_witness :
    Coop.release_pool 0
        { pool_size := 1, connection_ttl := 3600, store := some [],
          current_acquired := 1, next_conn := 1, closed := [] } =
      RPResult.raisedPoolException
        { pool_size := 1, connection_ttl := 3600, store := some [],
          current_acquired := 1, next_conn := 1, closed := [] } ∧
    Blocking.release_pool
        { connection_ttl := 3600, store := some [], current_acquired := 1, closed := [] } =
      RPResult.raisedPoolException
        { connection_ttl := 3600, store := some [], current_acquired := 1, closed := [] } :=
  c4_release_pool_guard_preserves 0 _ _ (by decide) (by decide)

/-- C6: in the cooperative variant a handle whose pool has
`connection_ttl = 0` is never reported expired, for every creation time and
every current time. -/
theorem c6_expire_ttl_zero_never (connected_at now : Int) :
    Coop.expire 0 connected_at now = false := by
  simp [Coop.expire]

/-- C5: starting from an initialized cooperative pool of size `N`, any
sequence of acquire/release operations that executes successfully leaves the
store live with `idle_count + checked_out_count = N`; paired sequences are
the special case where every release matches an earlier acquire. -/
theorem c5_conservation_invariant (N : Nat) (ttl now0 : Int) (ops : List Coop.PoolOp)
    (st : Coop.Pool)
    (h : Coop.runOps ops (Coop.init_pool now0 (Coop.mkPool N ttl)) = some st) :
    ∃ l, st.store = some l ∧ (l.length : Int) + st.current_acquired = N := by
  refine Coop.runOps_counter_inv N ops _ st
    ((List.range N).map fun i => (⟨i, now0⟩ : Coop.AsyncConnectionWrapper)) ?_ ?_ h
  · have hs := Coop.initLoop_store now0 N (Coop.mkPool N ttl)
    simpa [Coop.init_pool, Coop.mkPool] using hs
  · have hc : (Coop.init_pool now0 (Coop.mkPool N ttl)).current_acquired = 0 :=
      Coop.initLoop_current_acquired now0 N (Coop.mkPool N ttl)
    simp [hc]

/-- Witness for C5: a pool of size 2 after one completed acquire/release
pair. -/
theorem c5_conservation_invariant_witness :
    ∃ l, (⟨2, 3600, some [⟨1, 0⟩, ⟨0, 0⟩], 0, 2, []⟩ : Coop.Pool).store = some l ∧
      (l.length : Int) +
        (⟨2, 3600, some [⟨1, 0⟩, ⟨0, 0⟩], 0, 2, []⟩ : Coop.Pool).current_acquired = 2 :=
  c5_conservation_invariant 2 3600 0 [.acq 0, .rel 0 0] _ (by decide)

/-- C7: when the cooperative `acquire` takes a handle from the store, an
expired handle has its old connection closed and a freshly created
connection (the next allocator value) is returned in its place, with the
allocator advanced; a non-expired handle's own connection is returned and
nothing is closed. -/
theorem c7_acquire_expiry_replacement (now : Int) (st : Coop.Pool)
    (w : Coop.AsyncConnectionWrapper) (rest : List Coop.AsyncConnectionWrapper)
    (h : st.store = some (w :: rest)) :
    (Coop.expire st.connection_ttl w.connected_at now = true →
      ∃ st', Coop.acquire now st = some (st.next_conn, st') ∧
        st'.closed = st.closed ++ [w.conn] ∧ st'.next_conn = st.next_conn + 1) ∧
    (Coop.expire st.connection_ttl w.connected_at now = false →
      ∃ st', Coop.acquire now st = some (w.conn, st') ∧ st'.closed = st.closed) := by
  constructor <;> intro he
  · exact ⟨{ st with
        store := some rest
        closed := st.closed ++ [w.conn]
        next_conn := st.next_conn + 1
        current_acquired := st.current_acquired + 1 },
      by simp [Coop.acquire, h, he], rfl, rfl⟩
  · exact ⟨{ st with
        store := some rest
        current_acquired := st.current_acquired + 1 },
      by simp [Coop.acquire, h, he], rfl⟩

/-- Witness for C7 at a concrete pool whose single idle handle
(connection 3, created at time 0, ttl 10) is checked at time 100, hence
expired. -/
theorem c7_acquire_expiry_replacement_witness :
    (Coop.expire (⟨1, 10, some [⟨3, 0⟩], 0, 7, []⟩ : Coop.Pool).connection_ttl
        (⟨3, 0⟩ : Coop.AsyncConnectionWrapper).connected_at 100 = true →
      ∃ st', Coop.acquire 100 (⟨1, 10, some [⟨3, 0⟩], 0, 7, []⟩ : Coop.Pool) =
          some ((⟨1, 10, some [⟨3, 0⟩], 0, 7, []⟩ : Coop.Pool).next_conn, st') ∧
        st'.closed = (⟨1, 10, some [⟨3, 0⟩], 0, 7, []⟩ : Coop.Pool).closed ++
          [(⟨3, 0⟩ : Coop.AsyncConnectionWrapper).conn] ∧
        st'.next_conn = (⟨1, 10, some [⟨3, 0⟩], 0, 7, []⟩ : Coop.Pool).next_conn + 1) ∧
    (Coop.expire (⟨1, 10, some [⟨3, 0⟩], 0, 7, []⟩ : Coop.Pool).connection_ttl
        (⟨3, 0⟩ : Coop.AsyncConnectionWrapper).connected_at 100 = false →
      ∃ st', Coop.acquire 100 (⟨1, 10, some [⟨3, 0⟩], 0, 7, []⟩ : Coop.Pool) =
          some ((⟨3, 0⟩ : Coop.AsyncConnectionWrapper).conn, st') ∧
        st'.closed = (⟨1, 10, some [⟨3, 0⟩], 0, 7, []⟩ : Coop.Pool).closed) :=
  c7_acquire_expiry_replacement 100 _ _ [] rfl

/-- C8: on a pool with at least one idle handle, an acquire followed
immediately by a release of the obtained connection restores the idle
collection to its pre-acquire length, with the obtained connection back in
the collection wrapped in a fresh handle stamped with the release time, and
the checked-out counter restored. -/
theorem c8_acquire_release_round_trip (now now2 : Int) (st : Coop.Pool)
    (w : Coop.AsyncConnectionWrapper) (rest : List Coop.AsyncConnectionWrapper)
    (h : st.store = some (w :: rest)) :
    ∃ c st1 st2, Coop.acquire now st = some (c, st1) ∧
      Coop.release now2 c st1 = some st2 ∧
      st2.store = some (rest ++ [⟨c, now2⟩]) ∧
      (rest ++ [(⟨c, now2⟩ : Coop.AsyncConnectionWrapper)]).length = (w :: rest).length ∧
      st2.current_acquired = st.current_acquired := by
  by_cases he : Coop.expire st.connection_ttl w.connected_at now
  · refine ⟨st.next_conn,
      { st with
        store := some rest
        closed := st.closed ++ [w.conn]
        next_conn := st.next_conn + 1
        current_acquired := st.current_acquired + 1 },
      { st with
        store := some (rest ++ [⟨st.next_conn, now2⟩])
        closed := st.closed ++ [w.conn]
        next_conn := st.next_conn + 1
        current_acquired := st.current_acquired + 1 - 1 },
      by simp [Coop.acquire, h, he], by simp [Coop.release], rfl, by simp, by simp⟩
  · refine ⟨w.conn,
      { st with
        store := some rest
        current_acquired := st.current_acquired + 1 },
      { st with
        store := some (rest ++ [⟨w.conn, now2⟩])
        current_acquired := st.current_acquired + 1 - 1 },
      by simp [Coop.acquire, h, he], by simp [Coop.release], rfl, by simp, by simp⟩

/-- C9: in the cooperative variant with `pool_size = 1`, once the first task
owns the connection, a second acquirer suspends inside `get` while holding
`_pool_lock`, a third acquirer suspends on the lock, and the first task's
`release` then suspends on the same lock: after 8 scheduler steps the ready
queue is empty and stepping again is a fixed point, so no waiter is ever
resumed — the second acquirer does not resume after the first task calls
release; the system deadlocks instead. -/
theorem c9_contended_acquire_deadlock :
    (CoopSched.runSteps 8 CoopSched.scenario).ready = [] ∧
    CoopSched.step (CoopSched.runSteps 8 CoopSched.scenario) =
      CoopSched.runSteps 8 CoopSched.scenario ∧
    (CoopSched.runSteps 8 CoopSched.scenario).tasks.map CoopSched.Task.pc =
      [some (CoopSched.PC.rLock 0), some CoopSched.PC.aGet, some CoopSched.PC.aLock] ∧
    (CoopSched.runSteps 8 CoopSched.scenario).lockOwner = some 1 ∧
    (CoopSched.runSteps 8 CoopSched.scenario).lockWaiters = [2, 0] ∧
    (CoopSched.runSteps 8 CoopSched.scenario).queueGetters = [1] := by
  decide

/-- C10: a successful `release_pool` on a pool holding `k ≥ 1` idle handles
drains them through `acquire`, leaving the checked-out counter at `k > 0`
with the store cleared, so every subsequent `release_pool` raises
`PoolException` from the guard instead of crashing on the cleared store; in
both variants. -/
theorem c10_shutdown_counter_residue (now now2 : Int) (st : Coop.Pool)
    (l : List Coop.AsyncConnectionWrapper)
    (bst : Blocking.Pool) (bl : List Blocking.AsyncConnectionWrapper)
    (hc : st.current_acquired = 0) (hs : st.store = some l) (hl : l ≠ [])
    (hbc : bst.current_acquired = 0) (hbs : bst.store = some bl) (hbl : bl ≠ []) :
    (∃ st', Coop.release_pool now st = RPResult.ok st' ∧
      st'.current_acquired = (l.length : Int) ∧ 0 < st'.current_acquired ∧
      st'.store = none ∧
      Coop.release_pool now2 st' = RPResult.raisedPoolException st') ∧
    (∃ bst', Blocking.release_pool bst = RPResult.ok bst' ∧
      bst'.current_acquired = (bl.length : Int) ∧ 0 < bst'.current_acquired ∧
      bst'.store = none ∧
      Blocking.release_pool bst' = RPResult.raisedPoolException bst') := by
  constructor
  · refine ⟨{ Coop.drainLoop now l st with store := none }, ?_, ?_, ?_, rfl, ?_⟩
    · simp [Coop.release_pool, hc, hs]
    · show (Coop.drainLoop now l st).current_acquired = (l.length : Int)
      rw [Coop.drainLoop_current_acquired, hc]
      simp
    · show (0 : Int) < (Coop.drainLoop now l st).current_acquired
      rw [Coop.drainLoop_current_acquired, hc]
      have := List.length_pos.mpr hl
      simp
      omega
    · have hpos : (0 : Int) < (Coop.drainLoop now l st).current_acquired := by
        rw [Coop.drainLoop_current_acquired, hc]
        have := List.length_pos.mpr hl
        simp
        omega
      simp [Coop.release_pool, hpos]
  · refine ⟨{ Blocking.drainLoop bl bst with store := none }, ?_, ?_, ?_, rfl, ?_⟩
    · simp [Blocking.release_pool, hbc, hbs]
    · show (Blocking.drainLoop bl bst).current_acquired = (bl.length : Int)
      rw [Blocking.drainLoop_count_acquired, hbc]
      simp
    · show (0 : Int) < (Blocking.drainLoop bl bst).current_acquired
      rw [Blocking.drainLoop_count_acquired, hbc]
      have := List.length_pos.mpr hbl
      simp
      omega
    · have hpos : (0 : Int) < (Blocking.drainLoop bl bst).current_acquired := by
        rw [Blocking.drainLoop_count_acquired, hbc]
        have := List.length_pos.mpr hbl
        simp
        omega
      simp [Blocking.release_pool, hpos]

/-- Witness for C10 at a concrete pool of size 1 (one idle handle,
connection 0 created at time 0) in each variant. -/
theorem c10_shutdown_counter_residue_witness :
    (∃ st', Coop.release_pool 1 (⟨1, 3600, some [⟨0, 0⟩], 0, 1, []⟩ : Coop.Pool) =
        RPResult.ok st' ∧
      st'.current_acquired = (([(⟨0, 0⟩ : Coop.AsyncConnectionWrapper)]).length : Int) ∧
      0 < st'.current_acquired ∧ st'.store = none ∧
      Coop.release_pool 2 st' = RPResult.raisedPoolException st') ∧
    (∃ bst', Blocking.release_pool
          (⟨3600, some [⟨0, 0⟩], 0, []⟩ : Blocking.Pool) = RPResult.ok bst' ∧
      bst'.current_acquired =
        (([(⟨0, 0⟩ : Blocking.AsyncConnectionWrapper)]).length : Int) ∧
      0 < bst'.current_acquired ∧ bst'.store = none ∧
      Blocking.release_pool bst' = RPResult.raisedPoolException bst') :=
  c10_shutdown_counter_residue 1 2 _ _ _ _ rfl rfl (by decide) rfl rfl (by decide)

/-- Witness for C8 at a concrete pool with one non-expired idle handle. -/
theorem c8_acquire_release_round_trip_witness :
    ∃ c st1 st2,
      Coop.acquire 1 (⟨1, 3600, some [⟨0, 0⟩], 0, 1, []⟩ : Coop.Pool) = some (c, st1) ∧
      Coop.release 2 c st1 = some st2 ∧
      st2.store = some ([] ++ [⟨c, 2⟩]) ∧
      ([] ++ [(⟨c, 2⟩ : Coop.AsyncConnectionWrapper)]).length =
        ([(⟨0, 0⟩ : Coop.AsyncConnectionWrapper)]).length ∧
      st2.current_acquired =
        (⟨1, 3600, some [⟨0, 0⟩], 0, 1, []⟩ : Coop.Pool).current_acquired :=
  c8_acquire_release_round_trip 1 2 _ _ [] rfl
